import Mathlib

/-!
Shallow embedding of the crochet event-loop bootstrap layer.

The repository ships `crochet/__init__.py` (which wires the module-global
`EventLoop(reactor, _shutdown.register, startLoggingWithObserver)` instance
and exposes `setup`, `in_event_loop` and `retrieve_result = _store.retrieve`)
and its test suite `crochet/tests/test_setup.py`.  The implementation module
`crochet/_eventloop.py` (classes `EventLoop`, `ThreadLogObserver`,
`ResultStore` / `_store`) is not part of the sources, so those classes are
modelled here from the specification (sections 3, 4.1-4.5 of the design
document), faithful to its words; every definition whose source is missing
carries a doc comment starting with `Modelled from the spec:`.
-/

namespace Crochet

/-- Modelled from the spec: the `LoopLifecycle` state machine states
`{unstarted, started, disabled}` (spec section 3, "LoopLifecycle"). -/
inductive LoopState where
  | unstarted
  | started
  | disabled
deriving DecidableEq, Repr

/-- Modelled from the spec: the two process-exit hooks registered by
`setup()` (spec 4.5): first, request the loop to stop, submitted via the
loop's own run-on-loop-thread primitive (`reactor.callFromThread` with
argument `reactor.stop`); second, flush the `ResultStore` via
`_store.log_errors` with no arguments. -/
inductive ExitHook where
  | callFromThreadStop
  | storeLogErrors
deriving DecidableEq, Repr

/-- Modelled from the spec: the loop-shutdown hook registered by `setup()`
that stops the relay log observer (spec 4.5: "register a loop-shutdown hook
that stops the relay thread"). -/
inductive ReactorEventAction where
  | stopLogObserver
deriving DecidableEq, Repr

/-- Modelled from the spec: what `setup()` passes to the logging installer
(`startLoggingWithObserver`): the configured Python logging observer is
wrapped in a `ThreadLogObserver` (the relay), installed as the active log
sink replacing the default one, from inside the loop thread via the
reactor's run-on-loop-thread primitive, with `setStdout = False`. -/
structure ObserverInstall where
  isThreadLogObserver : Bool
  wrapsConfiguredObserver : Bool
  setStdout : Bool
  viaCallFromThread : Bool
deriving DecidableEq, Repr

/-- Modelled from the spec: a periodic scheduled call installed on the
reactor (spec 4.5: on POSIX platforms `setup()` installs a periodic call at
a fixed 100ms interval performing process-reaping maintenance,
`reapAllProcesses`). -/
structure DelayedCall where
  intervalMs : Nat
  isReapAllProcesses : Bool
deriving DecidableEq, Repr

/-- Modelled from the spec: the observable state owned by one `EventLoop`
(`LoopLifecycle`, spec section 3): its lifecycle state, the background
reactor thread, the registered process-exit hooks, the installed log
observer, the registered reactor shutdown events, the watchdog thread and
the periodic reaping call.  `posix` records the platform; `usedThreadIds`
tracks thread identifiers already allocated, so a freshly spawned thread is
distinct from every live one. -/
structure EventLoopState where
  posix : Bool
  state : LoopState
  reactorRuns : Nat
  runThreadId : Option Nat
  installSignalHandlers : Option Bool
  usedThreadIds : List Nat
  atexitHooks : List ExitHook
  installedObservers : List ObserverInstall
  reactorEvents : List (String × String × ReactorEventAction)
  watchdogStarted : Bool
  delayedCalls : List DelayedCall
deriving Repr

/-- Modelled from the spec: a fresh thread identifier, distinct from every
identifier in `used`. -/
def freshThreadId (used : List Nat) : Nat :=
  used.foldr max 0 + 1

/-- Modelled from the spec: the state of a brand new `EventLoop` instance:
lifecycle `unstarted`, nothing started, nothing registered. -/
def EventLoop.init (posix : Bool) : EventLoopState :=
  { posix := posix
    state := .unstarted
    reactorRuns := 0
    runThreadId := none
    installSignalHandlers := none
    usedThreadIds := []
    atexitHooks := []
    installedObservers := []
    reactorEvents := []
    watchdogStarted := false
    delayedCalls := [] }

/-- Modelled from the spec: `EventLoop.setup()` (spec 4.5), called from the
thread with identifier `callerTid`.  If the lifecycle state is not
`unstarted` it is a no-op.  Otherwise it: starts the background thread that
runs the reactor forever with OS signal handling disabled; installs the
logging relay (the configured observer wrapped in a `ThreadLogObserver`,
installed with `setStdout = False` from within the loop thread via
`callFromThread`); registers the reactor event `("after", "shutdown")`
stopping that relay observer; registers the two process-exit hooks in order
(stop the reactor via `callFromThread`, then `_store.log_errors`); starts
the watchdog thread; on POSIX installs the periodic 100ms reaping call;
and transitions to `started`. -/
def setup (callerTid : Nat) (s : EventLoopState) : EventLoopState :=
  match s.state with
  | .unstarted =>
      let tid := freshThreadId (callerTid :: s.usedThreadIds)
      { s with
        state := .started
        reactorRuns := s.reactorRuns + 1
        runThreadId := some tid
        installSignalHandlers := some false
        usedThreadIds := tid :: callerTid :: s.usedThreadIds
        atexitHooks := s.atexitHooks ++ [.callFromThreadStop, .storeLogErrors]
        installedObservers := s.installedObservers ++
          [{ isThreadLogObserver := true
             wrapsConfiguredObserver := true
             setStdout := false
             viaCallFromThread := true }]
        reactorEvents := s.reactorEvents ++ [("after", "shutdown", .stopLogObserver)]
        watchdogStarted := true
        delayedCalls := s.delayedCalls ++
          (if s.posix then [{ intervalMs := 100, isReapAllProcesses := true }] else []) }
  | _ => s

/-- Modelled from the spec: the usage error raised by `no_setup()` after
`setup()` (a `RuntimeError` at the Python level, spec 4.5 / section 7
"UsageError"). -/
inductive CrochetError where
  | usageError (msg : String)
deriving DecidableEq, Repr

/-- Modelled from the spec: `EventLoop.no_setup()` (spec 4.5).  If the state
is `started` it fails with a usage error and changes nothing; otherwise it
transitions directly to `disabled`, after which `setup()` is a permanent
no-op. -/
def no_setup (s : EventLoopState) : Except CrochetError EventLoopState :=
  match s.state with
  | .started => .error (.usageError "no_setup() is intended to be called before setup()")
  | _ => .ok { s with state := .disabled }

/-- A sequence of `setup()` calls, one per caller-thread identifier in the
list, executed in order.  Because `setup` and `no_setup` are serialized on
one shared lock, any concurrent execution of these operations is equivalent
to some such sequential order. -/
def setupN (callers : List Nat) (s : EventLoopState) : EventLoopState :=
  callers.foldl (fun acc c => setup c acc) s

/-- Modelled from the spec: the `synchronized` marker the lock decorator
leaves on `EventLoop.setup` (spec 4.1: the two lifecycle operations are
wrapped so that concurrent invocations from different threads are
serialized on one lock). -/
def setup_synchronized : Bool := true

/-- Modelled from the spec: the `synchronized` marker the lock decorator
leaves on `EventLoop.no_setup` (spec 4.1). -/
def no_setup_synchronized : Bool := true

/-! ### ThreadLogObserver (the relay thread, spec 4.2) -/

/-- Modelled from the spec: an item of the relay thread's unbounded ordered
queue, either a log record or the stop sentinel appended last by
`stop()`. -/
inductive QItem (M : Type) where
  | logRecord (m : M)
  | stopSentinel
deriving DecidableEq, Repr

/-- Modelled from the spec: a `ThreadLogObserver` owns one consumer thread
(with identifier `consumerTid`) and an ordered queue of pending items.
Records enqueued by producers appear in `queue` in enqueue order. -/
structure ThreadLogObserver (M : Type) where
  consumerTid : Nat
  queue : List (QItem M)
deriving Repr

/-- Modelled from the spec: a freshly constructed `ThreadLogObserver`: its
consumer thread is started in the constructor and its queue is empty. -/
def ThreadLogObserver.mk0 (M : Type) (tid : Nat) : ThreadLogObserver M :=
  { consumerTid := tid, queue := [] }

/-- Modelled from the spec: calling the observer (`emit`) enqueues the
record for delivery; non-blocking; always succeeds. -/
def ThreadLogObserver.emit {M : Type} (o : ThreadLogObserver M) (m : M) :
    ThreadLogObserver M :=
  { o with queue := o.queue ++ [.logRecord m] }

/-- Modelled from the spec: `stop()` appends the stop sentinel, signalling
the consumer to finish delivering everything already queued and then
terminate. -/
def ThreadLogObserver.stop {M : Type} (o : ThreadLogObserver M) :
    ThreadLogObserver M :=
  { o with queue := o.queue ++ [.stopSentinel] }

/-- Modelled from the spec: the consumer thread's loop.  It repeatedly
takes the next queued item; unless it is the stop sentinel it delivers the
record downstream (on the consumer thread, hence tagged with `tid`) and
loops; on the sentinel it exits.  The returned list is exactly what the
downstream observer receives, in order, paired with the thread identifier
it was delivered on. -/
def relayDeliveries {M : Type} (tid : Nat) : List (QItem M) → List (Nat × M)
  | [] => []
  | .stopSentinel :: _ => []
  | .logRecord m :: rest => (tid, m) :: relayDeliveries tid rest

/-- Modelled from the spec: whether the consumer thread has terminated
after the queue is processed: it exits exactly when it encounters the stop
sentinel, so the thread is no longer alive once a sentinel is present in
the queue and everything before it is drained. -/
def ThreadLogObserver.terminated {M : Type} (o : ThreadLogObserver M) : Bool :=
  o.queue.any (fun i => match i with | .stopSentinel => true | _ => false)

/-- Modelled from the spec: `is_alive()` of the consumer thread once the
queue has been fully processed (after a join): alive iff it never saw the
stop sentinel. -/
def ThreadLogObserver.is_alive {M : Type} (o : ThreadLogObserver M) : Bool :=
  !o.terminated

/-- The observer state after enqueueing the records `ms` in order and then
calling `stop()`. -/
def emitAllThenStop {M : Type} (tid : Nat) (ms : List M) : ThreadLogObserver M :=
  ThreadLogObserver.stop (ms.foldl ThreadLogObserver.emit (ThreadLogObserver.mk0 M tid))

/-! ### ResultStore (spec 4.3) -/

/-- Find the value bound to key `h` in an association list. -/
def findKey {R : Type} : List (Nat × R) → Nat → Option R
  | [], _ => none
  | (k, v) :: rest, h => if k = h then some v else findKey rest h

/-- Remove the binding of key `h` (the first one, and under the store's
no-duplicate invariant the only one) from an association list. -/
def removeKey {R : Type} : List (Nat × R) → Nat → List (Nat × R)
  | [], _ => []
  | (k, v) :: rest, h => if k = h then rest else (k, v) :: removeKey rest h

/-- Modelled from the spec: the `ResultStore`, a registry mapping opaque
integer handles to stored results.  `counter` is the source of fresh
handles; `results` holds the current bindings. -/
structure ResultStore (R : Type) where
  counter : Nat
  results : List (Nat × R)
deriving Repr

/-- Modelled from the spec: the empty store (`_store` at process start). -/
def ResultStore.empty (R : Type) : ResultStore R :=
  { counter := 0, results := [] }

/-- Modelled from the spec: `store(result) -> handle`: allocate a fresh
unused integer handle, record the mapping, return the handle. -/
def ResultStore.store {R : Type} (st : ResultStore R) (r : R) :
    Nat × ResultStore R :=
  let h := st.counter + 1
  (h, { counter := h, results := (h, r) :: st.results })

/-- Modelled from the spec: `retrieve(handle) -> result or not-found`
(exposed as `retrieve_result` in `crochet/__init__.py`): atomically remove
and return the mapping if present; `none` for unknown or already-retrieved
handles. -/
def ResultStore.retrieve {R : Type} (st : ResultStore R) (h : Nat) :
    Option R × ResultStore R :=
  (findKey st.results h, { st with results := removeKey st.results h })

/-- The store's integrity invariant: handles are pairwise distinct and
never exceed the fresh-handle counter.  It holds for the empty store and is
preserved by `store` and `retrieve`. -/
def ResultStore.WF {R : Type} (st : ResultStore R) : Prop :=
  (st.results.map Prod.fst).Nodup ∧ ∀ k ∈ st.results.map Prod.fst, k ≤ st.counter

/-! ### Process-exit hooks and the reactor-side system state (spec 4.3, 4.5) -/

/-- Whether a stored result represents a failure is abstract here; the
shutdown sweep only needs to count and forward the failures. -/
def countFailures {R : Type} (isFailure : R → Bool) (st : ResultStore R) : Nat :=
  (st.results.filter (fun p => isFailure p.2)).length

/-- The system state an exit hook acts on: whether the reactor was asked to
stop, how often the reactor's `callFromThread` primitive was used, the
result store, and how many failures were forwarded to logging. -/
structure SysState (R : Type) where
  reactorStopping : Bool
  callFromThreadUses : Nat
  store : ResultStore R
  loggedFailures : Nat
deriving Repr

/-- Modelled from the spec: `_store.log_errors()`: for every entry still
present, if it represents a failure, forward it to the logging subsystem;
always safe to call even with an empty store; it never raises (hence a
total function into `Except` that never returns `.error`). -/
def log_errors {R : Type} (isFailure : R → Bool) (s : SysState R) :
    Except CrochetError (SysState R) :=
  .ok { s with loggedFailures := s.loggedFailures + countFailures isFailure s.store }

/-- Modelled from the spec: running one registered process-exit hook.  The
first hook calls `reactor.callFromThread(reactor.stop)`: the stop request
goes through the reactor's thread-safe run-on-loop-thread primitive and
marks the reactor as stopping.  The second calls `_store.log_errors()` with
no arguments. -/
def runExitHook {R : Type} (isFailure : R → Bool) :
    ExitHook → SysState R → Except CrochetError (SysState R)
  | .callFromThreadStop, s =>
      .ok { s with reactorStopping := true, callFromThreadUses := s.callFromThreadUses + 1 }
  | .storeLogErrors, s => log_errors isFailure s

/-- The system state before any exit hook runs, over a given store. -/
def SysState.init {R : Type} (st : ResultStore R) : SysState R :=
  { reactorStopping := false, callFromThreadUses := 0, store := st, loggedFailures := 0 }

/-! ### Periodic reaping call semantics (spec 4.5, POSIX only) -/

/-- Modelled from the spec: how many times a periodic scheduled call with
the given period has fired once the loop clock has advanced to `tMs`
milliseconds (it fires at each whole multiple of its period, not at time
zero). -/
def firingsBy (d : DelayedCall) (tMs : Nat) : Nat :=
  tMs / d.intervalMs

/-- The number of `reapAllProcesses` invocations performed by the loop's
scheduled calls by loop time `tMs` milliseconds. -/
def reapCountBy (s : EventLoopState) (tMs : Nat) : Nat :=
  (s.delayedCalls.filter (fun d => d.isReapAllProcesses)).foldl
    (fun a d => a + firingsBy d tMs) 0

/-! ### Helper lemmas -/

theorem setup_of_started (c : Nat) (s : EventLoopState) (h : s.state = .started) :
    setup c s = s := by
  unfold setup
  rw [h]

theorem setup_of_disabled (c : Nat) (s : EventLoopState) (h : s.state = .disabled) :
    setup c s = s := by
  unfold setup
  rw [h]

theorem setupN_of_started (cs : List Nat) (s : EventLoopState)
    (h : s.state = .started) : setupN cs s = s := by
  induction cs with
  | nil => rfl
  | cons c cs ih =>
      simp only [setupN, List.foldl_cons] at *
      rw [setup_of_started c s h, ih]

theorem setupN_of_disabled (cs : List Nat) (s : EventLoopState)
    (h : s.state = .disabled) : setupN cs s = s := by
  induction cs with
  | nil => rfl
  | cons c cs ih =>
      simp only [setupN, List.foldl_cons] at *
      rw [setup_of_disabled c s h, ih]

/-- Computation of the first effective `setup()` call on a fresh loop. -/
theorem setup_init (p : Bool) (c : Nat) :
    setup c (EventLoop.init p) =
      { posix := p
        state := .started
        reactorRuns := 1
        runThreadId := some (c + 1)
        installSignalHandlers := some false
        usedThreadIds := [c + 1, c]
        atexitHooks := [.callFromThreadStop, .storeLogErrors]
        installedObservers :=
          [{ isThreadLogObserver := true
             wrapsConfiguredObserver := true
             setStdout := false
             viaCallFromThread := true }]
        reactorEvents := [("after", "shutdown", .stopLogObserver)]
        watchdogStarted := true
        delayedCalls :=
          if p then [{ intervalMs := 100, isReapAllProcesses := true }] else [] } := by
  simp [setup, EventLoop.init, freshThreadId]

theorem foldl_emit_queue {M : Type} (ms : List M) (o : ThreadLogObserver M) :
    (ms.foldl ThreadLogObserver.emit o).queue = o.queue ++ ms.map QItem.logRecord := by
  induction ms generalizing o with
  | nil => simp
  | cons m ms ih =>
      simp [List.foldl_cons, ih, ThreadLogObserver.emit]

theorem relayDeliveries_records {M : Type} (tid : Nat) (ms : List M)
    (rest : List (QItem M)) :
    relayDeliveries tid (ms.map QItem.logRecord ++ rest) =
      ms.map (fun m => (tid, m)) ++ relayDeliveries tid rest := by
  induction ms with
  | nil => simp
  | cons m ms ih => simp [relayDeliveries, ih]

theorem findKey_eq_none_of_not_mem {R : Type} (l : List (Nat × R)) (u : Nat)
    (h : u ∉ l.map Prod.fst) : findKey l u = none := by
  induction l with
  | nil => rfl
  | cons kv rest ih =>
      simp only [List.map_cons, List.mem_cons, not_or] at h
      obtain ⟨h1, h2⟩ := h
      cases kv with
      | mk k v =>
          simp only [findKey]
          rw [if_neg (fun hk => h1 hk.symm)]
          exact ih h2

theorem findKey_removeKey_self {R : Type} (l : List (Nat × R)) (h : Nat)
    (hnd : (l.map Prod.fst).Nodup) : findKey (removeKey l h) h = none := by
  induction l with
  | nil => rfl
  | cons kv rest ih =>
      cases kv with
      | mk k v =>
          simp only [List.map_cons, List.nodup_cons] at hnd
          obtain ⟨hk, hrest⟩ := hnd
          simp only [removeKey]
          by_cases hkh : k = h
          · rw [if_pos hkh]
            subst hkh
            exact findKey_eq_none_of_not_mem rest k hk
          · rw [if_neg hkh]
            simp only [findKey]
            rw [if_neg hkh]
            exact ih hrest

/-! ### Claim theorems -/

/-- C1: for every `EventLoop` instance, the first `setup()` call starts the
reactor's run loop in a background thread distinct from the calling thread
with `installSignalHandlers = False`, and every subsequent `setup()` call
is a no-op, so across any number of `setup()` calls the reactor's run entry
point is invoked exactly once. -/
theorem setup_runs_reactor_once (p : Bool) (c : Nat) (callers : List Nat) :
    (setupN callers (setup c (EventLoop.init p))).reactorRuns = 1 ∧
    (setupN callers (setup c (EventLoop.init p))).installSignalHandlers = some false ∧
    ∃ t, (setupN callers (setup c (EventLoop.init p))).runThreadId = some t ∧ t ≠ c := by
  rw [setupN_of_started callers (setup c (EventLoop.init p)) (by rw [setup_init]),
      setup_init]
  exact ⟨rfl, rfl, c + 1, rfl, Nat.succ_ne_self c⟩

/-- C2: `setup()` and `no_setup()` are serialized on a single shared lock
(both carry the `synchronized` marker), so any concurrent execution of
`setup()` calls from N threads is equivalent to a sequential order of the
calls; under every such order the loop start routine executes exactly once
and every caller observes state `started` at its return point (the state
after the prefix of calls ending with its own). -/
theorem setup_serialized_exactly_once (p : Bool) (c : Nat) (cs ds : List Nat) :
    setup_synchronized = true ∧ no_setup_synchronized = true ∧
    (setupN (c :: cs) (EventLoop.init p)).state = .started ∧
    (setupN (c :: cs ++ ds) (EventLoop.init p)).reactorRuns = 1 := by
  have hone : ∀ es : List Nat, setupN (c :: es) (EventLoop.init p) =
      setup c (EventLoop.init p) := by
    intro es
    show setupN es (setup c (EventLoop.init p)) = setup c (EventLoop.init p)
    exact setupN_of_started es _ (by rw [setup_init])
  refine ⟨rfl, rfl, ?_, ?_⟩
  · rw [hone cs, setup_init]
  · rw [show c :: cs ++ ds = c :: (cs ++ ds) from rfl, hone (cs ++ ds), setup_init]

/-- C3: if `no_setup()` is called first, every later `setup()` call does
nothing forever: the reactor run loop is never started, no log observer is
installed, no process-exit hooks are registered, and the watchdog thread is
never started. -/
theorem no_setup_first_disables_setup (p : Bool) (callers : List Nat) :
    ∃ s₀, no_setup (EventLoop.init p) = .ok s₀ ∧
      setupN callers s₀ = s₀ ∧
      s₀.state = .disabled ∧ s₀.reactorRuns = 0 ∧
      s₀.installedObservers = [] ∧ s₀.atexitHooks = [] ∧
      s₀.watchdogStarted = false := by
  refine ⟨{ EventLoop.init p with state := .disabled }, rfl, ?_, rfl, rfl, rfl, rfl, rfl⟩
  exact setupN_of_disabled callers _ rfl

/-- C4: calling `no_setup()` after `setup()` has already run always raises
a usage error (`RuntimeError`) and leaves the lifecycle state unchanged in
`started`. -/
theorem no_setup_after_setup_raises (p : Bool) (c : Nat) :
    (∃ msg, no_setup (setup c (EventLoop.init p)) = .error (.usageError msg)) ∧
    (setup c (EventLoop.init p)).state = .started := by
  rw [setup_init]
  exact ⟨⟨"no_setup() is intended to be called before setup()", rfl⟩, rfl⟩

/-- C5: for every sequence of records submitted to a `ThreadLogObserver`
followed by `stop()`, the wrapped downstream observer receives exactly
those records, in enqueue order, each delivered on the relay's single
consumer thread; after `stop()` the consumer thread terminates once
everything enqueued before the stop sentinel is drained, and `is_alive()`
becomes false. -/
theorem relay_delivers_in_order (M : Type) (tid : Nat) (ms : List M) :
    relayDeliveries tid (emitAllThenStop tid ms).queue =
      ms.map (fun m => (tid, m)) ∧
    (emitAllThenStop tid ms).is_alive = false := by
  have hq : (emitAllThenStop tid ms).queue =
      ms.map QItem.logRecord ++ [QItem.stopSentinel] := by
    simp [emitAllThenStop, ThreadLogObserver.stop, foldl_emit_queue,
      ThreadLogObserver.mk0]
  constructor
  · rw [hq, relayDeliveries_records]
    simp [relayDeliveries]
  · simp [ThreadLogObserver.is_alive, ThreadLogObserver.terminated, hq]

/-- C6: `setup()` registers exactly two process-exit hooks, in order: the
first requests the reactor to stop via `reactor.callFromThread(reactor.stop)`
(the reactor's thread-safe run-on-loop-thread primitive), and the second
flushes the result store by calling `_store.log_errors` with no arguments;
invoking the second hook never raises even when the store is empty. -/
theorem setup_exit_hooks_ordered (R : Type) (p : Bool) (c : Nat)
    (isFailure : R → Bool) (s : SysState R) :
    (setup c (EventLoop.init p)).atexitHooks =
      [.callFromThreadStop, .storeLogErrors] ∧
    runExitHook isFailure .callFromThreadStop s =
      .ok { s with reactorStopping := true,
                   callFromThreadUses := s.callFromThreadUses + 1 } ∧
    runExitHook isFailure .storeLogErrors (SysState.init (ResultStore.empty R)) =
      .ok (SysState.init (ResultStore.empty R)) := by
  refine ⟨by rw [setup_init], rfl, ?_⟩
  simp [runExitHook, log_errors, countFailures, SysState.init, ResultStore.empty]

/-- C7: `setup()` wraps the configured Python logging observer in a
`ThreadLogObserver`, installs it as the active Twisted log observer
(replacing the default sink) from within the loop thread via the reactor's
run-on-loop-thread primitive, and registers an `("after", "shutdown")`
reactor event that stops that relay observer. -/
theorem setup_installs_log_relay (p : Bool) (c : Nat) :
    (setup c (EventLoop.init p)).installedObservers =
      [{ isThreadLogObserver := true
         wrapsConfiguredObserver := true
         setStdout := false
         viaCallFromThread := true }] ∧
    ("after", "shutdown", ReactorEventAction.stopLogObserver) ∈
      (setup c (EventLoop.init p)).reactorEvents := by
  rw [setup_init]
  exact ⟨rfl, by simp⟩

/-- C8: for the result store exposed as `retrieve_result`: retrieving an
unknown handle returns not-found; retrieving a handle that was stored
returns its result exactly once, atomically removing the mapping, so a
second retrieve of the same handle returns not-found. -/
theorem retrieve_result_exactly_once (R : Type) (st : ResultStore R) (r : R)
    (u : Nat) (hwf : st.WF) (hu : u ∉ st.results.map Prod.fst) :
    (st.retrieve u).1 = none ∧
    ((st.store r).2.retrieve (st.store r).1).1 = some r ∧
    (((st.store r).2.retrieve (st.store r).1).2.retrieve (st.store r).1).1 =
      none := by
  obtain ⟨hnd, hle⟩ := hwf
  have hfresh : st.counter + 1 ∉ st.results.map Prod.fst := by
    intro hmem
    exact absurd (hle _ hmem) (by omega)
  refine ⟨findKey_eq_none_of_not_mem st.results u hu, ?_, ?_⟩
  · simp [ResultStore.store, ResultStore.retrieve, findKey]
  · simp only [ResultStore.store, ResultStore.retrieve, removeKey, if_pos rfl]
    exact findKey_eq_none_of_not_mem st.results _ hfresh

theorem retrieve_result_exactly_once_witness :
    (((ResultStore.empty Nat).retrieve 7).1 = none ∧
    (((ResultStore.empty Nat).store 42).2.retrieve
        ((ResultStore.empty Nat).store 42).1).1 = some 42 ∧
    ((((ResultStore.empty Nat).store 42).2.retrieve
        ((ResultStore.empty Nat).store 42).1).2.retrieve
        ((ResultStore.empty Nat).store 42).1).1 = none) :=
  retrieve_result_exactly_once Nat (ResultStore.empty Nat) 42 7
    (by simp [ResultStore.WF, ResultStore.empty])
    (by simp [ResultStore.empty])

/-- C9: on POSIX platforms, `setup()` installs a periodic scheduled call
that invokes `reapAllProcesses` exactly once per 0.1-second interval of
loop time (10 times a second); on non-POSIX platforms, `setup()` installs
no delayed call. -/
theorem setup_posix_reaping (c k : Nat) :
    (setup c (EventLoop.init true)).delayedCalls =
      [{ intervalMs := 100, isReapAllProcesses := true }] ∧
    reapCountBy (setup c (EventLoop.init true)) (100 * k) = k ∧
    (setup c (EventLoop.init false)).delayedCalls = [] := by
  refine ⟨by simp [setup_init], ?_, by simp [setup_init]⟩
  rw [setup_init]
  simp [reapCountBy, firingsBy]

/-- C10: when `setup()` installs the relay log observer it calls the
logging installer with `setStdout = False`, so the process's standard
output and error streams are not redirected into the logging system. -/
theorem setup_setStdout_false (p : Bool) (c : Nat) (callers : List Nat) :
    (setupN callers (setup c (EventLoop.init p))).installedObservers.map
      (fun ob => ob.setStdout) = [false] := by
  rw [setupN_of_started callers _ (by rw [setup_init]), setup_init]
  rfl

end Crochet
